import Mathlib

/-!
Verification of the LSST DRP computational-budget model (lsst-dm/kpm).

The repository holds two Jupyter notebooks, each a single-pass numeric
computation estimating the TFLOPS needed to run the LSST data-release
pipeline: a "6-month" scenario (survey `lsstWideAndFastDR1`) and a
"1-year" scenario (survey `lsstWideAndFast1Year`).  All magnitudes are
embedded as exact rationals (`ℚ`); the notebooks use Python floats, but
every literal in them is a short decimal, and the claims checked here
carry tolerances (0.1 % / 1 %) many orders of magnitude above any
float-rounding discrepancy, so rational arithmetic decides them
faithfully.

Units are embedded by fixed base magnitudes: times in seconds, clock
rates in cycles per second, cycle and FLOP counts as plain magnitudes
related by the notebooks' conversion factor `cycle = 4 * 0.68 FLOP`,
and TFLOPS as `10^12 FLOP / second`.  The `Telescope.fieldOfView`
field (`pi*(1.75 deg)^2`) is not used by any stage function, total, or
claim, and is left out of the record.
-/

/-- One cycle in FLOP: `cycle = u.def_unit('cycle', 4*0.68*flop)`. -/
def flopPerCycle : ℚ := 4 * (68 / 100)

/-- Convert a cycle count to FLOP (astropy `.to(flop)` on a cycle quantity). -/
def cyclesToFlop (x : ℚ) : ℚ := x * flopPerCycle

/-- Convert a FLOP count back to cycles (astropy `.to(cycle)` on a FLOP quantity). -/
def flopToCycles (x : ℚ) : ℚ := x / flopPerCycle

/-- Seconds in one week (astropy `u.week`). -/
def secondsPerWeek : ℚ := 604800

/-- Seconds in one Julian year (astropy `u.year`); only feeds the unused
`duration` field. -/
def secondsPerYear : ℚ := 31557600

/-- `(flopAmount / time).to(tflops)` with `tflops = (flop*10^12)/(1*u.second)`. -/
def toTflops (flopAmount time : ℚ) : ℚ := flopAmount / time / 10 ^ 12

/-- `Telescope` class: CCD count and filter count (the `fieldOfView` field is
never read by any formula and is omitted). -/
structure Telescope where
  nCcds : ℚ
  nFilters : ℚ
  deriving DecidableEq

/-- `Survey` class: survey scale and compute-window parameters. -/
structure Survey where
  duration : ℚ
  nVisits : ℚ
  nEpochs : ℚ
  nFields : ℚ
  nStars : ℚ
  nOutOfPlaneStars : ℚ
  nForcedSources : ℚ
  computeTime : ℚ
  deriving DecidableEq

/-- `Survey.__init__`: stores every argument as a field, with no validation
of any kind (in particular no check that `surveyStars ≤ stars`). -/
def Survey.init (duration visits epochs fields stars surveyStars forcedSources
    computeTime : ℚ) : Survey :=
  ⟨duration, visits, epochs, fields, stars, surveyStars, forcedSources, computeTime⟩

/-- `Computer` class: clock speed in cycles per second. -/
structure Computer where
  clockSpeed : ℚ
  deriving DecidableEq

/-- `CoaddParameters` class. -/
structure CoaddParameters where
  pixelDensityFactor : ℚ
  imageReuse : ℚ
  deblendFactor : ℚ
  deriving DecidableEq

/-- `TemplateParameters` class. -/
structure TemplateParameters where
  nTypes : ℚ
  nVersions : ℚ
  depth : ℚ
  deriving DecidableEq

/-! ### The 6-month scenario notebook (src/unnamed/part_000) -/

namespace SixMonth

/-- `lsst = Telescope(189, 6, ...)`. -/
def lsst : Telescope := ⟨189, 6⟩

/-- `lsstWideAndFastDR1 = Survey(0.5*u.year, 2750000/20, 1056/20, 2604,
14706186098, 5141033287, 1.19507E+12, 9*u.week)`. -/
def lsstWideAndFastDR1 : Survey :=
  Survey.init ((1/2) * secondsPerYear) (2750000 / 20) (1056 / 20) 2604
    14706186098 5141033287 1195070000000 (9 * secondsPerWeek)

/-- `abe = Computer(2.33e9 * cycle / u.second)`. -/
def abe : Computer := ⟨2330000000⟩

/-- `lsst_dev = Computer(3.1e9 * cycle / u.second)`. -/
def lsst_dev : Computer := ⟨3100000000⟩

/-- `tiger3 = Computer(2.8e9 * cycle / u.second)`. -/
def tiger3 : Computer := ⟨2800000000⟩

/-- `coaddParams = CoaddParameters(1, 4, 0.1)`. -/
def coaddParams : CoaddParameters := ⟨1, 4, 1/10⟩

/-- `templateParams = TemplateParameters(6, 3, 5)`. -/
def templateParams : TemplateParameters := ⟨6, 3, 5⟩

/-- `calcDiffimCycles(timePerCcd, telescope, survey, computer)`. -/
def calcDiffimCycles (timePerCcd : ℚ) (telescope : Telescope) (survey : Survey)
    (computer : Computer) : ℚ :=
  timePerCcd * telescope.nCcds * survey.nVisits * computer.clockSpeed

/-- `calcTemplateCoadditionCycles(timePerCcd, coaddParams, templateParams,
telescope, survey, computer)`. -/
def calcTemplateCoadditionCycles (timePerCcd : ℚ) (coaddParams : CoaddParameters)
    (templateParams : TemplateParameters) (telescope : Telescope) (survey : Survey)
    (computer : Computer) : ℚ :=
  timePerCcd * telescope.nCcds * coaddParams.pixelDensityFactor *
    survey.nFields * templateParams.nTypes * templateParams.nVersions *
    templateParams.depth * computer.clockSpeed

/-- `calcDeepCoadditionCycles(timePerCcd, coaddParams, telescope, survey, computer)`. -/
def calcDeepCoadditionCycles (timePerCcd : ℚ) (coaddParams : CoaddParameters)
    (telescope : Telescope) (survey : Survey) (computer : Computer) : ℚ :=
  timePerCcd * telescope.nCcds * computer.clockSpeed * coaddParams.imageReuse *
    survey.nVisits

/-- `calcCoaddProcessCycles(timePerCcd, coaddParams, telescope, survey, computer)`:
`perCoadd * coaddsPerField * nFields` with the `(deblendFactor + 1)` overhead
factor and `coaddsPerField = nFilters + 1`. -/
def calcCoaddProcessCycles (timePerCcd : ℚ) (coaddParams : CoaddParameters)
    (telescope : Telescope) (survey : Survey) (computer : Computer) : ℚ :=
  let perCoadd := timePerCcd * telescope.nCcds * computer.clockSpeed *
    coaddParams.pixelDensityFactor * (coaddParams.deblendFactor + 1)
  let coaddsPerField := telescope.nFilters + 1
  perCoadd * coaddsPerField * survey.nFields

/-- `calcMultiEpochCycles(timePerObject, survey, computer)`: no check of the
sign of `outOfPlaneForcedSrcs`. -/
def calcMultiEpochCycles (timePerObject : ℚ) (survey : Survey)
    (computer : Computer) : ℚ :=
  let galacticPlaneObjects := survey.nStars - survey.nOutOfPlaneStars
  let galacticPlaneForcedSrcs := galacticPlaneObjects * survey.nEpochs
  let outOfPlaneForcedSrcs := survey.nForcedSources - galacticPlaneForcedSrcs
  outOfPlaneForcedSrcs * timePerObject * computer.clockSpeed

/-- `calcAlertSDQA(timePerVisit, survey, computer)`. -/
def calcAlertSDQA (timePerVisit : ℚ) (survey : Survey) (computer : Computer) : ℚ :=
  timePerVisit * survey.nVisits * computer.clockSpeed

/-- `diffimCycles = calcDiffimCycles(75.8*u.second, lsst, lsstWideAndFastDR1, abe)`. -/
def diffimCycles : ℚ := calcDiffimCycles (758/10) lsst lsstWideAndFastDR1 abe

/-- `templateCycles = calcTemplateCoadditionCycles(75.8*u.second, ...)`. -/
def templateCycles : ℚ :=
  calcTemplateCoadditionCycles (758/10) coaddParams templateParams lsst
    lsstWideAndFastDR1 abe

/-- `deepCoaddCycles = calcDeepCoadditionCycles(75.8*u.second, ...)`. -/
def deepCoaddCycles : ℚ :=
  calcDeepCoadditionCycles (758/10) coaddParams lsst lsstWideAndFastDR1 abe

/-- `coaddSrcDetCycles = calcCoaddProcessCycles(6.19*u.second, ...)`. -/
def coaddSrcDetCycles : ℚ :=
  calcCoaddProcessCycles (619/100) coaddParams lsst lsstWideAndFastDR1 abe

/-- `coaddSrcMeasCycles = calcCoaddProcessCycles(10.50*u.second, ...)`. -/
def coaddSrcMeasCycles : ℚ :=
  calcCoaddProcessCycles (1050/100) coaddParams lsst lsstWideAndFastDR1 abe

/-- `coaddProcessCycles = coaddSrcDetCycles + coaddSrcMeasCycles`. -/
def coaddProcessCycles : ℚ := coaddSrcDetCycles + coaddSrcMeasCycles

/-- `multiEpochCycles = calcMultiEpochCycles(0.096*u.second, lsstWideAndFastDR1, lsst_dev)`. -/
def multiEpochCycles : ℚ :=
  calcMultiEpochCycles (96/1000) lsstWideAndFastDR1 lsst_dev

/-- `sdqaCycles = calcAlertSDQA(600*u.second, lsstWideAndFastDR1, abe)`. -/
def sdqaCycles : ℚ := calcAlertSDQA 600 lsstWideAndFastDR1 abe

/-- `totalCycles = diffimCycles + templateCycles + deepCoaddCycles +
coaddProcessCycles + multiEpochCycles + sdqaCycles`. -/
def totalCycles : ℚ :=
  diffimCycles + templateCycles + deepCoaddCycles + coaddProcessCycles +
    multiEpochCycles + sdqaCycles

/-- `totalFlop = totalCycles.to(flop)`. -/
def totalFlop : ℚ := cyclesToFlop totalCycles

/-- `(totalFlop / lsstWideAndFastDR1.computeTime).to(tflops)`. -/
def throughputTflops : ℚ := toTflops totalFlop lsstWideAndFastDR1.computeTime

end SixMonth

/-! ### The 1-year scenario notebook (LSST DRP Computational Budget.ipynb) -/

namespace OneYear

/-- `lsst = Telescope(189, 6, ...)`. -/
def lsst : Telescope := ⟨189, 6⟩

/-- `lsstWideAndFast1Year = Survey(u.year, 2750000/10, 1056/10, 2604,
1.71E+10, 5.63E+09, 2.91E+12, 9*u.week)`. -/
def lsstWideAndFast1Year : Survey :=
  Survey.init secondsPerYear (2750000 / 10) (1056 / 10) 2604
    17100000000 5630000000 2910000000000 (9 * secondsPerWeek)

/-- `abe = Computer(2.33e9 * cycle / u.second)`. -/
def abe : Computer := ⟨2330000000⟩

/-- `lsst_dev = Computer(3.1e9 * cycle / u.second)`. -/
def lsst_dev : Computer := ⟨3100000000⟩

/-- `tiger3 = Computer(2.8e9 * cycle / u.second)`. -/
def tiger3 : Computer := ⟨2800000000⟩

/-- `ksk_mbp = Computer(3e9 * cycle / u.second)`. -/
def ksk_mbp : Computer := ⟨3000000000⟩

/-- `coaddParams = CoaddParameters(1, 4, 0.1)`. -/
def coaddParams : CoaddParameters := ⟨1, 4, 1/10⟩

/-- `templateParams = TemplateParameters(6, 3, 5)`. -/
def templateParams : TemplateParameters := ⟨6, 3, 5⟩

/-- `calcDiffimCycles(timePerCcd, telescope, survey, computer)` (this file's copy). -/
def calcDiffimCycles (timePerCcd : ℚ) (telescope : Telescope) (survey : Survey)
    (computer : Computer) : ℚ :=
  timePerCcd * telescope.nCcds * survey.nVisits * computer.clockSpeed

/-- `diffimCycles = calcDiffimCycles(70*u.second, lsst, lsstWideAndFast1Year, lsst_dev)`. -/
def diffimCycles : ℚ := calcDiffimCycles 70 lsst lsstWideAndFast1Year lsst_dev

/-- `nCalexps = 60`. -/
def nCalexps : ℚ := 60

/-- `hscToLsstScale = 2`. -/
def hscToLsstScale : ℚ := 2

/-- `makeTempExpTime = u.second * ((190.72 - 10.17) + (189.47 - 10.24))/2`. -/
def makeTempExpTime : ℚ := ((19072/100 - 1017/100) + (18947/100 - 1024/100)) / 2

/-- `assembleCoaddTime = u.second * ((49.31 - 10.24) + (49.22 - 9.73))/2`. -/
def assembleCoaddTime : ℚ := ((4931/100 - 1024/100) + (4922/100 - 973/100)) / 2

/-- `coaddCcdTime = hscToLsstScale * (makeTempExpTime + assembleCoaddTime) / nCalexps`. -/
def coaddCcdTime : ℚ := hscToLsstScale * (makeTempExpTime + assembleCoaddTime) / nCalexps

/-- `calcTemplateCoadditionCycles(...)` (this file's copy). -/
def calcTemplateCoadditionCycles (timePerCcd : ℚ) (coaddParams : CoaddParameters)
    (templateParams : TemplateParameters) (telescope : Telescope) (survey : Survey)
    (computer : Computer) : ℚ :=
  timePerCcd * telescope.nCcds * coaddParams.pixelDensityFactor *
    survey.nFields * templateParams.nTypes * templateParams.nVersions *
    templateParams.depth * computer.clockSpeed

/-- `templateCycles = calcTemplateCoadditionCycles(coaddCcdTime, ..., tiger3)`. -/
def templateCycles : ℚ :=
  calcTemplateCoadditionCycles coaddCcdTime coaddParams templateParams lsst
    lsstWideAndFast1Year tiger3

/-- `calcDeepCoadditionCycles(...)` (this file's copy). -/
def calcDeepCoadditionCycles (timePerCcd : ℚ) (coaddParams : CoaddParameters)
    (telescope : Telescope) (survey : Survey) (computer : Computer) : ℚ :=
  timePerCcd * telescope.nCcds * computer.clockSpeed * coaddParams.imageReuse *
    survey.nVisits

/-- `deepCoaddCycles = calcDeepCoadditionCycles(coaddCcdTime, coaddParams, lsst,
lsstWideAndFast1Year, abe)`.  Note the computer argument is `abe`. -/
def deepCoaddCycles : ℚ :=
  calcDeepCoadditionCycles coaddCcdTime coaddParams lsst lsstWideAndFast1Year abe

/-- `coaddToCcd = (4000.0 * 4072.0) / (4200.0 * 4200.0)`. -/
def coaddToCcd : ℚ := (4000 * 4072) / (4200 * 4200)

/-- `detectTimePerCcd = (8.405 + 7.986 + 8.347) * coaddToCcd * u.second / 3`. -/
def detectTimePerCcd : ℚ := (8405/1000 + 7986/1000 + 8347/1000) * coaddToCcd / 3

/-- `mergeTime = (lsst.nFilters + 1)**2 * 12.798 / (3**2) * u.second`. -/
def mergeTime : ℚ := (lsst.nFilters + 1) ^ 2 * (12798/1000) / 3 ^ 2

/-- `measureTimePerCcd = (138.512 + 129.993 + 108.708) * coaddToCcd * u.second / 3`. -/
def measureTimePerCcd : ℚ :=
  (138512/1000 + 129993/1000 + 108708/1000) * coaddToCcd / 3

/-- `coaddSrcDetAndMeasCycles = (detectTimePerCcd + measureTimePerCcd) * lsst.nCcds *
lsst_dev.clockSpeed * coaddParams.pixelDensityFactor * (lsst.nFilters + 1) *
lsstWideAndFast1Year.nFields`. -/
def coaddSrcDetAndMeasCycles : ℚ :=
  (detectTimePerCcd + measureTimePerCcd) * lsst.nCcds * lsst_dev.clockSpeed *
    coaddParams.pixelDensityFactor * (lsst.nFilters + 1) * lsstWideAndFast1Year.nFields

/-- `coaddMergeCycles = mergeTime * lsst_dev.clockSpeed * lsstWideAndFast1Year.nFields`. -/
def coaddMergeCycles : ℚ := mergeTime * lsst_dev.clockSpeed * lsstWideAndFast1Year.nFields

/-- `coaddProcessCycles = coaddMergeCycles + coaddSrcDetAndMeasCycles`. -/
def coaddProcessCycles : ℚ := coaddMergeCycles + coaddSrcDetAndMeasCycles

/-- `numSources = 10983`. -/
def numSources : ℚ := 10983

/-- `timePerObject` after the multifit increment: forced photometry
`(62.428 + 62.082 + 56.435) / (3 * numSources)` plus `200 * 0.56 / 1000`. -/
def timePerObject : ℚ :=
  (62428/1000 + 62082/1000 + 56435/1000) / (3 * numSources) +
    200 * (56/100) / 1000

/-- `calcMultiEpochCycles(timePerObject, survey, computer)` (this file's copy). -/
def calcMultiEpochCycles (timePerObject : ℚ) (survey : Survey)
    (computer : Computer) : ℚ :=
  let galacticPlaneObjects := survey.nStars - survey.nOutOfPlaneStars
  let galacticPlaneForcedSrcs := galacticPlaneObjects * survey.nEpochs
  let outOfPlaneForcedSrcs := survey.nForcedSources - galacticPlaneForcedSrcs
  outOfPlaneForcedSrcs * timePerObject * computer.clockSpeed

/-- `multiEpochCycles = calcMultiEpochCycles(timePerObject, lsstWideAndFast1Year, lsst_dev)`. -/
def multiEpochCycles : ℚ :=
  calcMultiEpochCycles timePerObject lsstWideAndFast1Year lsst_dev

/-- `calcAlertSDQA(timePerVisit, survey, computer)` (this file's copy). -/
def calcAlertSDQA (timePerVisit : ℚ) (survey : Survey) (computer : Computer) : ℚ :=
  timePerVisit * survey.nVisits * computer.clockSpeed

/-- `sdqaCycles = calcAlertSDQA(600*u.second, lsstWideAndFast1Year, abe)`. -/
def sdqaCycles : ℚ := calcAlertSDQA 600 lsstWideAndFast1Year abe

/-- `totalCycles = diffimCycles + templateCycles + deepCoaddCycles +
coaddProcessCycles + multiEpochCycles + sdqaCycles`. -/
def totalCycles : ℚ :=
  diffimCycles + templateCycles + deepCoaddCycles + coaddProcessCycles +
    multiEpochCycles + sdqaCycles

/-- `totalFlop = totalCycles.to(flop)`. -/
def totalFlop : ℚ := cyclesToFlop totalCycles

/-- `(totalFlop / lsstWideAndFast1Year.computeTime).to(tflops)`. -/
def throughputTflops : ℚ := toTflops totalFlop lsstWideAndFast1Year.computeTime

end OneYear

/-! ### Shared evaluation lemmas -/

/-- Exact value of the 6-month scenario's `totalCycles`. -/
lemma sixMonth_totalCycles_eq :
    SixMonth.totalCycles = 236464230718115160000 := by
  norm_num [SixMonth.totalCycles, SixMonth.diffimCycles, SixMonth.templateCycles,
    SixMonth.deepCoaddCycles, SixMonth.coaddProcessCycles, SixMonth.coaddSrcDetCycles,
    SixMonth.coaddSrcMeasCycles, SixMonth.multiEpochCycles, SixMonth.sdqaCycles,
    SixMonth.calcDiffimCycles, SixMonth.calcTemplateCoadditionCycles,
    SixMonth.calcDeepCoadditionCycles, SixMonth.calcCoaddProcessCycles,
    SixMonth.calcMultiEpochCycles, SixMonth.calcAlertSDQA, SixMonth.lsst,
    SixMonth.lsstWideAndFastDR1, SixMonth.abe, SixMonth.lsst_dev,
    SixMonth.coaddParams, SixMonth.templateParams, Survey.init, secondsPerWeek,
    secondsPerYear]

/-- Exact value of the 1-year scenario's `totalCycles`. -/
lemma oneYear_totalCycles_eq :
    OneYear.totalCycles = 2328989789571540509280000 / 3661 := by
  norm_num [OneYear.totalCycles, OneYear.diffimCycles, OneYear.templateCycles,
    OneYear.deepCoaddCycles, OneYear.coaddProcessCycles, OneYear.coaddMergeCycles,
    OneYear.coaddSrcDetAndMeasCycles, OneYear.multiEpochCycles, OneYear.sdqaCycles,
    OneYear.calcDiffimCycles, OneYear.calcTemplateCoadditionCycles,
    OneYear.calcDeepCoadditionCycles, OneYear.calcMultiEpochCycles,
    OneYear.calcAlertSDQA, OneYear.lsst, OneYear.lsstWideAndFast1Year,
    OneYear.abe, OneYear.lsst_dev, OneYear.tiger3, OneYear.coaddParams,
    OneYear.templateParams, OneYear.coaddCcdTime, OneYear.makeTempExpTime,
    OneYear.assembleCoaddTime, OneYear.hscToLsstScale, OneYear.nCalexps,
    OneYear.coaddToCcd, OneYear.detectTimePerCcd, OneYear.measureTimePerCcd,
    OneYear.mergeTime, OneYear.timePerObject, OneYear.numSources, Survey.init,
    secondsPerWeek, secondsPerYear]

/-! ### Claim theorems -/

/-- C1: for the 6-month scenario's full parameter set, the aggregator output —
the sum of the six stage cycle totals, converted to FLOP at 2.72 FLOP per
cycle and divided by the 9-week compute window — is within 1 % of
118.16 TFLOPS. -/
theorem C1_sixMonth_grand_total_throughput :
    |SixMonth.throughputTflops - 11816/100| ≤ (11816/100) / 100 := by
  rw [abs_le]
  constructor <;>
    norm_num [SixMonth.throughputTflops, toTflops, SixMonth.totalFlop,
      cyclesToFlop, flopPerCycle, sixMonth_totalCycles_eq,
      SixMonth.lsstWideAndFastDR1, Survey.init, secondsPerWeek, secondsPerYear]

/-- C2: with the 6-month scenario constants, the difference-imaging stage
returns exactly `timePerCcd * ccdCount * visitCount * clockRate` cycles, and
the result is within 0.1 % of 4.5898e18 cycles. -/
theorem C2_sixMonth_diffim_cycles :
    SixMonth.diffimCycles =
      (758/10) * SixMonth.lsst.nCcds * SixMonth.lsstWideAndFastDR1.nVisits *
        SixMonth.abe.clockSpeed ∧
    |SixMonth.diffimCycles - 45898 * 10 ^ 14| ≤ 45898 * 10 ^ 14 / 1000 := by
  constructor
  · rfl
  · rw [abs_le]
    constructor <;>
      norm_num [SixMonth.diffimCycles, SixMonth.calcDiffimCycles, SixMonth.lsst,
        SixMonth.lsstWideAndFastDR1, SixMonth.abe, Survey.init, secondsPerWeek,
        secondsPerYear]

/-- C3: with the 1-year scenario constants, difference-imaging cycles are
within 0.1 % of 1.1279e19, and the scenario's final aggregated throughput is
within 1 % of 317.89 TFLOPS. -/
theorem C3_oneYear_diffim_and_throughput :
    |OneYear.diffimCycles - 11279 * 10 ^ 15| ≤ 11279 * 10 ^ 15 / 1000 ∧
    |OneYear.throughputTflops - 31789/100| ≤ (31789/100) / 100 := by
  constructor
  · rw [abs_le]
    constructor <;>
      norm_num [OneYear.diffimCycles, OneYear.calcDiffimCycles, OneYear.lsst,
        OneYear.lsstWideAndFast1Year, OneYear.lsst_dev, Survey.init,
        secondsPerWeek, secondsPerYear]
  · rw [abs_le]
    constructor <;>
      norm_num [OneYear.throughputTflops, toTflops, OneYear.totalFlop,
        cyclesToFlop, flopPerCycle, oneYear_totalCycles_eq,
        OneYear.lsstWideAndFast1Year, Survey.init, secondsPerWeek, secondsPerYear]

/-- C9: converting a positive magnitude from cycles to FLOP (factor
2.72 = 4 * 0.68) and back reproduces it exactly, and the two conversions are
mutually inverse. -/
theorem C9_cycle_flop_round_trip (x : ℚ) (hx : 0 < x) :
    flopToCycles (cyclesToFlop x) = x ∧ cyclesToFlop (flopToCycles x) = x := by
  constructor <;>
  · unfold cyclesToFlop flopToCycles flopPerCycle
    norm_num

/-- Witness for C9 at the concrete magnitude 5. -/
theorem C9_cycle_flop_round_trip_witness :
    flopToCycles (cyclesToFlop 5) = 5 ∧ cyclesToFlop (flopToCycles 5) = 5 :=
  C9_cycle_flop_round_trip 5 (by norm_num)

/-- C10: in the 1-year scenario the deep-coaddition stage is evaluated with
the `abe` reference computer's clock rate (2.33e9), not `tiger3`'s (2.8e9):
`deepCoaddCycles = coaddCcdTime * 189 * 2.33e9 * 4 * 275000`, which differs
from the same product taken at `tiger3`'s clock rate and is within 0.1 % of
3.5389e18 cycles. -/
theorem C10_oneYear_deep_coadd_uses_abe :
    OneYear.deepCoaddCycles = OneYear.coaddCcdTime * 189 * 2330000000 * 4 * 275000 ∧
    OneYear.abe.clockSpeed = 2330000000 ∧
    OneYear.deepCoaddCycles ≠
      OneYear.coaddCcdTime * 189 * OneYear.tiger3.clockSpeed * 4 * 275000 ∧
    |OneYear.deepCoaddCycles - 35389 * 10 ^ 14| ≤ 35389 * 10 ^ 14 / 1000 := by
  refine ⟨?_, rfl, ?_, ?_⟩
  · norm_num [OneYear.deepCoaddCycles, OneYear.calcDeepCoadditionCycles,
      OneYear.lsst, OneYear.lsstWideAndFast1Year, OneYear.abe,
      OneYear.coaddParams, Survey.init, secondsPerWeek, secondsPerYear]
  · norm_num [OneYear.deepCoaddCycles, OneYear.calcDeepCoadditionCycles,
      OneYear.lsst, OneYear.lsstWideAndFast1Year, OneYear.abe, OneYear.tiger3,
      OneYear.coaddParams, OneYear.coaddCcdTime, OneYear.makeTempExpTime,
      OneYear.assembleCoaddTime, OneYear.hscToLsstScale, OneYear.nCalexps,
      Survey.init, secondsPerWeek, secondsPerYear]
  · rw [abs_le]
    constructor <;>
      norm_num [OneYear.deepCoaddCycles, OneYear.calcDeepCoadditionCycles,
        OneYear.lsst, OneYear.lsstWideAndFast1Year, OneYear.abe,
        OneYear.coaddParams, OneYear.coaddCcdTime, OneYear.makeTempExpTime,
        OneYear.assembleCoaddTime, OneYear.hscToLsstScale, OneYear.nCalexps,
        Survey.init, secondsPerWeek, secondsPerYear]

/-! ### The coadd detection+measurement stage of each file, as a function of
its per-unit times and parameter records -/

namespace SixMonth

/-- The 6-month file's coadd detection-and-measurement stage total as a
function of the detection and measurement per-CCD times: two invocations of
`calcCoaddProcessCycles` summed, exactly as cell 10 of the file does. -/
def coaddProcessStage (tDet tMeas : ℚ) (cp : CoaddParameters) (tel : Telescope)
    (sv : Survey) (comp : Computer) : ℚ :=
  calcCoaddProcessCycles tDet cp tel sv comp +
    calcCoaddProcessCycles tMeas cp tel sv comp

end SixMonth

namespace OneYear

/-- The 1-year file's coadd detection-and-measurement stage total as a
function of the detection, measurement, and merge times: the inline
computation `coaddMergeCycles + coaddSrcDetAndMeasCycles` abstracted over its
per-unit time inputs. -/
def coaddProcessStage (tDet tMeas tMerge : ℚ) (cp : CoaddParameters)
    (tel : Telescope) (sv : Survey) (comp : Computer) : ℚ :=
  tMerge * comp.clockSpeed * sv.nFields +
    (tDet + tMeas) * tel.nCcds * comp.clockSpeed * cp.pixelDensityFactor *
      (tel.nFilters + 1) * sv.nFields

end OneYear

/-- C4, counterexample: the claimed universal formula fails in the 6-month
scenario.  There the stage total carries the extra `(deblendFactor + 1)`
factor and has no merge term at all, so it differs from
`(detectTime + measureTime) * ccdCount * clockRate * pixelDensityFactor *
(filterCount + 1) * fieldCount` plus the merge term built from the
repository's only merge-time measurement (12.798 s over 3 reference bands). -/
theorem C4_counterexample_sixMonth_formula :
    SixMonth.coaddProcessCycles ≠
      ((619/100) + (1050/100)) * SixMonth.lsst.nCcds * SixMonth.abe.clockSpeed *
        SixMonth.coaddParams.pixelDensityFactor * (SixMonth.lsst.nFilters + 1) *
        SixMonth.lsstWideAndFastDR1.nFields +
      (SixMonth.lsst.nFilters + 1) ^ 2 * (12798/1000) / 3 ^ 2 *
        SixMonth.abe.clockSpeed * SixMonth.lsstWideAndFastDR1.nFields := by
  norm_num [SixMonth.coaddProcessCycles, SixMonth.coaddSrcDetCycles,
    SixMonth.coaddSrcMeasCycles, SixMonth.calcCoaddProcessCycles, SixMonth.lsst,
    SixMonth.lsstWideAndFastDR1, SixMonth.abe, SixMonth.coaddParams, Survey.init,
    secondsPerWeek, secondsPerYear]

/-- C4, amended: the claimed formula — detection-plus-measurement term plus a
quadratic merge term `(filterCount+1)^2 * mergeTimeConstant /
referenceBandCount^2 * clockRate * fieldCount` — holds in the 1-year scenario
(mergeTimeConstant 12.798 s, referenceBandCount 3); the 6-month scenario
instead multiplies by the extra factor `(deblendFactor + 1)` and has no merge
term. -/
theorem C4_amended_coadd_process_formulas :
    OneYear.coaddProcessCycles =
      (OneYear.detectTimePerCcd + OneYear.measureTimePerCcd) * OneYear.lsst.nCcds *
        OneYear.lsst_dev.clockSpeed * OneYear.coaddParams.pixelDensityFactor *
        (OneYear.lsst.nFilters + 1) * OneYear.lsstWideAndFast1Year.nFields +
      (OneYear.lsst.nFilters + 1) ^ 2 * (12798/1000) / 3 ^ 2 *
        OneYear.lsst_dev.clockSpeed * OneYear.lsstWideAndFast1Year.nFields ∧
    SixMonth.coaddProcessCycles =
      ((619/100) + (1050/100)) * SixMonth.lsst.nCcds * SixMonth.abe.clockSpeed *
        SixMonth.coaddParams.pixelDensityFactor *
        (SixMonth.coaddParams.deblendFactor + 1) * (SixMonth.lsst.nFilters + 1) *
        SixMonth.lsstWideAndFastDR1.nFields := by
  constructor
  · norm_num [OneYear.coaddProcessCycles, OneYear.coaddMergeCycles,
      OneYear.coaddSrcDetAndMeasCycles, OneYear.mergeTime, OneYear.detectTimePerCcd,
      OneYear.measureTimePerCcd, OneYear.coaddToCcd, OneYear.lsst,
      OneYear.lsstWideAndFast1Year, OneYear.lsst_dev, OneYear.coaddParams,
      Survey.init, secondsPerWeek, secondsPerYear]
  · norm_num [SixMonth.coaddProcessCycles, SixMonth.coaddSrcDetCycles,
      SixMonth.coaddSrcMeasCycles, SixMonth.calcCoaddProcessCycles, SixMonth.lsst,
      SixMonth.lsstWideAndFastDR1, SixMonth.abe, SixMonth.coaddParams, Survey.init,
      secondsPerWeek, secondsPerYear]

/-- C5, counterexample: the coadd detection-and-measurement stage's function
from per-unit times and parameter records to a cycle total is not
extensionally equal between the two files.  Applied to the 1-year file's own
measured times and parameter records, the 6-month file's stage function gives
a different total from the 1-year file's stage computation (which itself
reproduces `coaddProcessCycles`). -/
theorem C5_counterexample_coadd_stage_differs :
    SixMonth.coaddProcessStage OneYear.detectTimePerCcd OneYear.measureTimePerCcd
        OneYear.coaddParams OneYear.lsst OneYear.lsstWideAndFast1Year
        OneYear.lsst_dev ≠
      OneYear.coaddProcessStage OneYear.detectTimePerCcd OneYear.measureTimePerCcd
        OneYear.mergeTime OneYear.coaddParams OneYear.lsst
        OneYear.lsstWideAndFast1Year OneYear.lsst_dev ∧
    OneYear.coaddProcessStage OneYear.detectTimePerCcd OneYear.measureTimePerCcd
        OneYear.mergeTime OneYear.coaddParams OneYear.lsst
        OneYear.lsstWideAndFast1Year OneYear.lsst_dev =
      OneYear.coaddProcessCycles := by
  constructor
  · norm_num [SixMonth.coaddProcessStage, SixMonth.calcCoaddProcessCycles,
      OneYear.coaddProcessStage, OneYear.mergeTime, OneYear.detectTimePerCcd,
      OneYear.measureTimePerCcd, OneYear.coaddToCcd, OneYear.lsst,
      OneYear.lsstWideAndFast1Year, OneYear.lsst_dev, OneYear.coaddParams,
      Survey.init, secondsPerWeek, secondsPerYear]
  · norm_num [OneYear.coaddProcessStage, OneYear.coaddProcessCycles,
      OneYear.coaddMergeCycles, OneYear.coaddSrcDetAndMeasCycles]

/-- C5, amended: five of the six stages (difference imaging, template
coaddition, deep coaddition, multi-epoch characterization, alert SDQA) have
extensionally equal formulas in the two scenario files — only the constant
inputs differ — but the coadd detection-and-measurement stage does not: the
6-month file applies a `(deblendFactor + 1)` factor and no merge term, while
the 1-year file drops the deblend factor and adds a merge term, so the two
stage functions disagree already at the 1-year file's own inputs. -/
theorem C5_amended_shared_stage_formulas :
    (∀ (t : ℚ) (tel : Telescope) (sv : Survey) (c : Computer),
      SixMonth.calcDiffimCycles t tel sv c = OneYear.calcDiffimCycles t tel sv c) ∧
    (∀ (t : ℚ) (cp : CoaddParameters) (tp : TemplateParameters) (tel : Telescope)
        (sv : Survey) (c : Computer),
      SixMonth.calcTemplateCoadditionCycles t cp tp tel sv c =
        OneYear.calcTemplateCoadditionCycles t cp tp tel sv c) ∧
    (∀ (t : ℚ) (cp : CoaddParameters) (tel : Telescope) (sv : Survey) (c : Computer),
      SixMonth.calcDeepCoadditionCycles t cp tel sv c =
        OneYear.calcDeepCoadditionCycles t cp tel sv c) ∧
    (∀ (t : ℚ) (sv : Survey) (c : Computer),
      SixMonth.calcMultiEpochCycles t sv c = OneYear.calcMultiEpochCycles t sv c) ∧
    (∀ (t : ℚ) (sv : Survey) (c : Computer),
      SixMonth.calcAlertSDQA t sv c = OneYear.calcAlertSDQA t sv c) ∧
    SixMonth.coaddProcessStage OneYear.detectTimePerCcd OneYear.measureTimePerCcd
        OneYear.coaddParams OneYear.lsst OneYear.lsstWideAndFast1Year
        OneYear.lsst_dev ≠
      OneYear.coaddProcessStage OneYear.detectTimePerCcd OneYear.measureTimePerCcd
        OneYear.mergeTime OneYear.coaddParams OneYear.lsst
        OneYear.lsstWideAndFast1Year OneYear.lsst_dev := by
  refine ⟨fun _ _ _ _ => rfl, fun _ _ _ _ _ _ => rfl, fun _ _ _ _ _ => rfl,
    fun _ _ _ => rfl, fun _ _ _ => rfl, ?_⟩
  norm_num [SixMonth.coaddProcessStage, SixMonth.calcCoaddProcessCycles,
    OneYear.coaddProcessStage, OneYear.mergeTime, OneYear.detectTimePerCcd,
    OneYear.measureTimePerCcd, OneYear.coaddToCcd, OneYear.lsst,
    OneYear.lsstWideAndFast1Year, OneYear.lsst_dev, OneYear.coaddParams,
    Survey.init, secondsPerWeek, secondsPerYear]

/-! ### Error-handling and monotonicity claims -/

/-- A survey whose multi-epoch intermediate `outOfPlaneForcedSrcs` is
negative: `nForcedSources - (nStars - nOutOfPlaneStars) * nEpochs
= 5 - (10 - 0) * 2 = -15`. -/
def inconsistentSurvey : Survey := Survey.init 1 1 2 1 10 0 5 1

/-- C6, counterexample: on a configuration whose intermediate out-of-plane
forced-source count is negative, `calcMultiEpochCycles` does not fail — the
source has no check and no error path — it returns the negative cycle total
`-15` (at `timePerObject = 1`, `clockSpeed = 1`). -/
theorem C6_counterexample_negative_total_returned :
    SixMonth.calcMultiEpochCycles 1 inconsistentSurvey ⟨1⟩ = -15 ∧
    SixMonth.calcMultiEpochCycles 1 inconsistentSurvey ⟨1⟩ < 0 := by
  constructor <;>
    norm_num [SixMonth.calcMultiEpochCycles, inconsistentSurvey, Survey.init]

/-- C6, amended: whenever the intermediate out-of-plane forced-source count is
negative and the per-object time and clock rate are positive, the multi-epoch
stage silently returns a negative cycle total (it performs no check and raises
no NegativeDerivedQuantity error). -/
theorem C6_amended_negative_propagates (t : ℚ) (sv : Survey) (comp : Computer)
    (ht : 0 < t) (hc : 0 < comp.clockSpeed)
    (hneg : sv.nForcedSources - (sv.nStars - sv.nOutOfPlaneStars) * sv.nEpochs < 0) :
    SixMonth.calcMultiEpochCycles t sv comp < 0 := by
  dsimp only [SixMonth.calcMultiEpochCycles]
  exact mul_neg_of_neg_of_pos (mul_neg_of_neg_of_pos hneg ht) hc

/-- Witness for the amended C6 at `inconsistentSurvey`. -/
theorem C6_amended_negative_propagates_witness :
    SixMonth.calcMultiEpochCycles 1 inconsistentSurvey ⟨1⟩ < 0 :=
  C6_amended_negative_propagates 1 inconsistentSurvey ⟨1⟩ (by norm_num)
    (by norm_num) (by norm_num [inconsistentSurvey, Survey.init])

/-- A survey constructed with `surveyStars > stars`
(`nOutOfPlaneStars = 10 > nStars = 5`). -/
def invalidSurvey : Survey := Survey.init 1 1 1 1 5 10 1 1

/-- C7, counterexample: `Survey.__init__` performs no validation, so a survey
with `outOfPlaneStarCount > starCount` is constructed successfully (the fields
are stored as given, invariant violated), and the multi-epoch formula is then
evaluated on it, returning `1 - (5 - 10) * 1 = 6`. -/
theorem C7_counterexample_no_construction_check :
    invalidSurvey.nStars < invalidSurvey.nOutOfPlaneStars ∧
    SixMonth.calcMultiEpochCycles 1 invalidSurvey ⟨1⟩ = 6 := by
  constructor <;>
    norm_num [invalidSurvey, Survey.init, SixMonth.calcMultiEpochCycles]

/-- C7, amended: `Survey` construction never fails — even when
`outOfPlaneStarCount > starCount` it returns a record with the fields stored
verbatim, and the multi-epoch formula evaluates on that record. -/
theorem C7_amended_constructor_stores_fields
    (d v e f s ss fs ct : ℚ) (hss : s < ss) :
    (Survey.init d v e f s ss fs ct).nStars = s ∧
    (Survey.init d v e f s ss fs ct).nOutOfPlaneStars = ss ∧
    ∀ (t : ℚ) (comp : Computer),
      SixMonth.calcMultiEpochCycles t (Survey.init d v e f s ss fs ct) comp =
        (fs - (s - ss) * e) * t * comp.clockSpeed :=
  ⟨rfl, rfl, fun _ _ => rfl⟩

/-- Witness for the amended C7: the invariant-violating record
`Survey.init 1 1 1 1 5 10 1 1` is built and the multi-epoch formula evaluated
on it at `t = 2`, `clockSpeed = 3`. -/
theorem C7_amended_constructor_stores_fields_witness :
    SixMonth.calcMultiEpochCycles 2 (Survey.init 1 1 1 1 5 10 1 1) ⟨3⟩ =
      (1 - (5 - 10) * 1) * 2 * (3 : ℚ) :=
  (C7_amended_constructor_stores_fields 1 1 1 1 5 10 1 1 (by norm_num)).2.2 2 ⟨3⟩

/-- A survey used to exhibit non-monotonicity of the multi-epoch stage:
`nEpochs = 1`, `nStars = 10`, `nOutOfPlaneStars = 0`, `nForcedSources = 100`. -/
def monotonySurvey : Survey := Survey.init 0 0 1 0 10 0 100 0

/-- C8, counterexample: increasing the single scale parameter `nStars` by one
(all other parameters held fixed) strictly decreases the multi-epoch stage's
cycle total: `100 - 11 * 1 = 89 < 90 = 100 - 10 * 1`. -/
theorem C8_counterexample_multiEpoch_decreases_in_stars :
    SixMonth.calcMultiEpochCycles 1
        { monotonySurvey with nStars := monotonySurvey.nStars + 1 } ⟨1⟩ <
      SixMonth.calcMultiEpochCycles 1 monotonySurvey ⟨1⟩ := by
  norm_num [SixMonth.calcMultiEpochCycles, monotonySurvey, Survey.init]

/-- C8, amended: with all other parameters nonnegative, increasing any single
scale parameter never decreases the cycle total of the difference-imaging,
template-coaddition, deep-coaddition, coadd detection-and-measurement, and
alert-SDQA stages; the multi-epoch stage is nondecreasing in
`nForcedSources` and `nOutOfPlaneStars` but nonincreasing in `nStars` and in
`nEpochs` (the latter when `nOutOfPlaneStars ≤ nStars`), so the claim fails
as stated exactly for those two parameters of that stage. -/
theorem C8_amended_stage_monotonicity :
    (∀ (t : ℚ) (tel : Telescope) (sv : Survey) (c : Computer) (n n' : ℚ),
      0 ≤ t → 0 ≤ sv.nVisits → 0 ≤ c.clockSpeed → n ≤ n' →
      SixMonth.calcDiffimCycles t { tel with nCcds := n } sv c ≤
        SixMonth.calcDiffimCycles t { tel with nCcds := n' } sv c) ∧
    (∀ (t : ℚ) (tel : Telescope) (sv : Survey) (c : Computer) (n n' : ℚ),
      0 ≤ t → 0 ≤ tel.nCcds → 0 ≤ c.clockSpeed → n ≤ n' →
      SixMonth.calcDiffimCycles t tel { sv with nVisits := n } c ≤
        SixMonth.calcDiffimCycles t tel { sv with nVisits := n' } c) ∧
    (∀ (t : ℚ) (cp : CoaddParameters) (tp : TemplateParameters) (tel : Telescope)
        (sv : Survey) (c : Computer) (n n' : ℚ),
      0 ≤ t → 0 ≤ cp.pixelDensityFactor → 0 ≤ sv.nFields → 0 ≤ tp.nTypes →
      0 ≤ tp.nVersions → 0 ≤ tp.depth → 0 ≤ c.clockSpeed → n ≤ n' →
      SixMonth.calcTemplateCoadditionCycles t cp tp { tel with nCcds := n } sv c ≤
        SixMonth.calcTemplateCoadditionCycles t cp tp { tel with nCcds := n' } sv c) ∧
    (∀ (t : ℚ) (cp : CoaddParameters) (tp : TemplateParameters) (tel : Telescope)
        (sv : Survey) (c : Computer) (n n' : ℚ),
      0 ≤ t → 0 ≤ tel.nCcds → 0 ≤ cp.pixelDensityFactor → 0 ≤ tp.nTypes →
      0 ≤ tp.nVersions → 0 ≤ tp.depth → 0 ≤ c.clockSpeed → n ≤ n' →
      SixMonth.calcTemplateCoadditionCycles t cp tp tel { sv with nFields := n } c ≤
        SixMonth.calcTemplateCoadditionCycles t cp tp tel { sv with nFields := n' } c) ∧
    (∀ (t : ℚ) (cp : CoaddParameters) (tp : TemplateParameters) (tel : Telescope)
        (sv : Survey) (c : Computer) (n n' : ℚ),
      0 ≤ t → 0 ≤ tel.nCcds → 0 ≤ cp.pixelDensityFactor → 0 ≤ sv.nFields →
      0 ≤ tp.nVersions → 0 ≤ tp.depth → 0 ≤ c.clockSpeed → n ≤ n' →
      SixMonth.calcTemplateCoadditionCycles t cp { tp with nTypes := n } tel sv c ≤
        SixMonth.calcTemplateCoadditionCycles t cp { tp with nTypes := n' } tel sv c) ∧
    (∀ (t : ℚ) (cp : CoaddParameters) (tp : TemplateParameters) (tel : Telescope)
        (sv : Survey) (c : Computer) (n n' : ℚ),
      0 ≤ t → 0 ≤ tel.nCcds → 0 ≤ cp.pixelDensityFactor → 0 ≤ sv.nFields →
      0 ≤ tp.nTypes → 0 ≤ tp.depth → 0 ≤ c.clockSpeed → n ≤ n' →
      SixMonth.calcTemplateCoadditionCycles t cp { tp with nVersions := n } tel sv c ≤
        SixMonth.calcTemplateCoadditionCycles t cp { tp with nVersions := n' } tel sv c) ∧
    (∀ (t : ℚ) (cp : CoaddParameters) (tp : TemplateParameters) (tel : Telescope)
        (sv : Survey) (c : Computer) (n n' : ℚ),
      0 ≤ t → 0 ≤ tel.nCcds → 0 ≤ cp.pixelDensityFactor → 0 ≤ sv.nFields →
      0 ≤ tp.nTypes → 0 ≤ tp.nVersions → 0 ≤ c.clockSpeed → n ≤ n' →
      SixMonth.calcTemplateCoadditionCycles t cp { tp with depth := n } tel sv c ≤
        SixMonth.calcTemplateCoadditionCycles t cp { tp with depth := n' } tel sv c) ∧
    (∀ (t : ℚ) (cp : CoaddParameters) (tel : Telescope) (sv : Survey) (c : Computer)
        (n n' : ℚ),
      0 ≤ t → 0 ≤ c.clockSpeed → 0 ≤ cp.imageReuse → 0 ≤ sv.nVisits → n ≤ n' →
      SixMonth.calcDeepCoadditionCycles t cp { tel with nCcds := n } sv c ≤
        SixMonth.calcDeepCoadditionCycles t cp { tel with nCcds := n' } sv c) ∧
    (∀ (t : ℚ) (cp : CoaddParameters) (tel : Telescope) (sv : Survey) (c : Computer)
        (n n' : ℚ),
      0 ≤ t → 0 ≤ tel.nCcds → 0 ≤ c.clockSpeed → 0 ≤ sv.nVisits → n ≤ n' →
      SixMonth.calcDeepCoadditionCycles t { cp with imageReuse := n } tel sv c ≤
        SixMonth.calcDeepCoadditionCycles t { cp with imageReuse := n' } tel sv c) ∧
    (∀ (t : ℚ) (cp : CoaddParameters) (tel : Telescope) (sv : Survey) (c : Computer)
        (n n' : ℚ),
      0 ≤ t → 0 ≤ tel.nCcds → 0 ≤ c.clockSpeed → 0 ≤ cp.imageReuse → n ≤ n' →
      SixMonth.calcDeepCoadditionCycles t cp tel { sv with nVisits := n } c ≤
        SixMonth.calcDeepCoadditionCycles t cp tel { sv with nVisits := n' } c) ∧
    (∀ (t : ℚ) (cp : CoaddParameters) (tel : Telescope) (sv : Survey) (c : Computer)
        (n n' : ℚ),
      0 ≤ t → 0 ≤ c.clockSpeed → 0 ≤ cp.pixelDensityFactor → 0 ≤ cp.deblendFactor →
      0 ≤ tel.nFilters → 0 ≤ sv.nFields → n ≤ n' →
      SixMonth.calcCoaddProcessCycles t cp { tel with nCcds := n } sv c ≤
        SixMonth.calcCoaddProcessCycles t cp { tel with nCcds := n' } sv c) ∧
    (∀ (t : ℚ) (cp : CoaddParameters) (tel : Telescope) (sv : Survey) (c : Computer)
        (n n' : ℚ),
      0 ≤ t → 0 ≤ tel.nCcds → 0 ≤ c.clockSpeed → 0 ≤ cp.pixelDensityFactor →
      0 ≤ cp.deblendFactor → 0 ≤ sv.nFields → n ≤ n' →
      SixMonth.calcCoaddProcessCycles t cp { tel with nFilters := n } sv c ≤
        SixMonth.calcCoaddProcessCycles t cp { tel with nFilters := n' } sv c) ∧
    (∀ (t : ℚ) (cp : CoaddParameters) (tel : Telescope) (sv : Survey) (c : Computer)
        (n n' : ℚ),
      0 ≤ t → 0 ≤ tel.nCcds → 0 ≤ c.clockSpeed → 0 ≤ cp.pixelDensityFactor →
      0 ≤ cp.deblendFactor → 0 ≤ tel.nFilters → n ≤ n' →
      SixMonth.calcCoaddProcessCycles t cp tel { sv with nFields := n } c ≤
        SixMonth.calcCoaddProcessCycles t cp tel { sv with nFields := n' } c) ∧
    (∀ (t : ℚ) (sv : Survey) (c : Computer) (n n' : ℚ),
      0 ≤ t → 0 ≤ c.clockSpeed → n ≤ n' →
      SixMonth.calcAlertSDQA t { sv with nVisits := n } c ≤
        SixMonth.calcAlertSDQA t { sv with nVisits := n' } c) ∧
    (∀ (t : ℚ) (sv : Survey) (c : Computer) (n n' : ℚ),
      0 ≤ t → 0 ≤ c.clockSpeed → n ≤ n' →
      SixMonth.calcMultiEpochCycles t { sv with nForcedSources := n } c ≤
        SixMonth.calcMultiEpochCycles t { sv with nForcedSources := n' } c) ∧
    (∀ (t : ℚ) (sv : Survey) (c : Computer) (n n' : ℚ),
      0 ≤ t → 0 ≤ c.clockSpeed → 0 ≤ sv.nEpochs → n ≤ n' →
      SixMonth.calcMultiEpochCycles t { sv with nOutOfPlaneStars := n } c ≤
        SixMonth.calcMultiEpochCycles t { sv with nOutOfPlaneStars := n' } c) ∧
    (∀ (t : ℚ) (sv : Survey) (c : Computer) (n n' : ℚ),
      0 ≤ t → 0 ≤ c.clockSpeed → 0 ≤ sv.nEpochs → n ≤ n' →
      SixMonth.calcMultiEpochCycles t { sv with nStars := n' } c ≤
        SixMonth.calcMultiEpochCycles t { sv with nStars := n } c) ∧
    (∀ (t : ℚ) (sv : Survey) (c : Computer) (n n' : ℚ),
      0 ≤ t → 0 ≤ c.clockSpeed → sv.nOutOfPlaneStars ≤ sv.nStars → n ≤ n' →
      SixMonth.calcMultiEpochCycles t { sv with nEpochs := n' } c ≤
        SixMonth.calcMultiEpochCycles t { sv with nEpochs := n } c) := by
  refine ⟨?_, ?_, ?_, ?_, ?_, ?_, ?_, ?_, ?_, ?_, ?_, ?_, ?_, ?_, ?_, ?_, ?_, ?_⟩
  · intro t tel sv c n n' ht hv hc h
    dsimp only [SixMonth.calcDiffimCycles]
    gcongr
  · intro t tel sv c n n' ht hn hc h
    dsimp only [SixMonth.calcDiffimCycles]
    gcongr
  · intro t cp tp tel sv c n n' ht hpd hf hty hve hdp hc h
    dsimp only [SixMonth.calcTemplateCoadditionCycles]
    gcongr
  · intro t cp tp tel sv c n n' ht hn hpd hty hve hdp hc h
    dsimp only [SixMonth.calcTemplateCoadditionCycles]
    gcongr
  · intro t cp tp tel sv c n n' ht hn hpd hf hve hdp hc h
    dsimp only [SixMonth.calcTemplateCoadditionCycles]
    gcongr
  · intro t cp tp tel sv c n n' ht hn hpd hf hty hdp hc h
    dsimp only [SixMonth.calcTemplateCoadditionCycles]
    gcongr
  · intro t cp tp tel sv c n n' ht hn hpd hf hty hve hc h
    dsimp only [SixMonth.calcTemplateCoadditionCycles]
    gcongr
  · intro t cp tel sv c n n' ht hc hir hv h
    dsimp only [SixMonth.calcDeepCoadditionCycles]
    gcongr
  · intro t cp tel sv c n n' ht hn hc hv h
    dsimp only [SixMonth.calcDeepCoadditionCycles]
    gcongr
  · intro t cp tel sv c n n' ht hn hc hir h
    dsimp only [SixMonth.calcDeepCoadditionCycles]
    gcongr
  · intro t cp tel sv c n n' ht hc hpd hdb hnf hf h
    dsimp only [SixMonth.calcCoaddProcessCycles]
    have hdb1 : (0 : ℚ) ≤ cp.deblendFactor + 1 := by linarith
    have hnf1 : (0 : ℚ) ≤ tel.nFilters + 1 := by linarith
    gcongr
  · intro t cp tel sv c n n' ht hn hc hpd hdb hf h
    dsimp only [SixMonth.calcCoaddProcessCycles]
    have hA : (0 : ℚ) ≤ t * tel.nCcds * c.clockSpeed * cp.pixelDensityFactor *
        (cp.deblendFactor + 1) := by
      have : (0 : ℚ) ≤ cp.deblendFactor + 1 := by linarith
      positivity
    gcongr
  · intro t cp tel sv c n n' ht hn hc hpd hdb hnf h
    dsimp only [SixMonth.calcCoaddProcessCycles]
    have hA : (0 : ℚ) ≤ t * tel.nCcds * c.clockSpeed * cp.pixelDensityFactor *
        (cp.deblendFactor + 1) := by
      have : (0 : ℚ) ≤ cp.deblendFactor + 1 := by linarith
      positivity
    have hAf : (0 : ℚ) ≤ t * tel.nCcds * c.clockSpeed * cp.pixelDensityFactor *
        (cp.deblendFactor + 1) * (tel.nFilters + 1) := by
      have : (0 : ℚ) ≤ tel.nFilters + 1 := by linarith
      positivity
    gcongr
  · intro t sv c n n' ht hc h
    dsimp only [SixMonth.calcAlertSDQA]
    gcongr
  · intro t sv c n n' ht hc h
    dsimp only [SixMonth.calcMultiEpochCycles]
    gcongr
  · intro t sv c n n' ht hc he h
    dsimp only [SixMonth.calcMultiEpochCycles]
    gcongr
  · intro t sv c n n' ht hc he h
    dsimp only [SixMonth.calcMultiEpochCycles]
    gcongr
  · intro t sv c n n' ht hc hso h
    dsimp only [SixMonth.calcMultiEpochCycles]
    have hg : (0 : ℚ) ≤ sv.nStars - sv.nOutOfPlaneStars := by linarith
    gcongr

/-- Witness for the amended C8: the difference-imaging conjunct applied at the
6-month scenario records with `nCcds` raised from 100 to 200. -/
theorem C8_amended_stage_monotonicity_witness :
    SixMonth.calcDiffimCycles 2 { SixMonth.lsst with nCcds := 100 }
        SixMonth.lsstWideAndFastDR1 SixMonth.abe ≤
      SixMonth.calcDiffimCycles 2 { SixMonth.lsst with nCcds := 200 }
        SixMonth.lsstWideAndFastDR1 SixMonth.abe :=
  C8_amended_stage_monotonicity.1 2 SixMonth.lsst SixMonth.lsstWideAndFastDR1
    SixMonth.abe 100 200 (by norm_num)
    (by norm_num [SixMonth.lsstWideAndFastDR1, Survey.init])
    (by norm_num [SixMonth.abe]) (by norm_num)
